import Mathlib

/-!
Verification development for the steamtrades plugin (src/steamtrades.py).

The plugin is an authenticated client for the steamtrades.com forum.  Its two
operations are a login handshake (`do_login`) and a trade "bump" action
(`get_trade_info` + `bump`).  Both operate on HTML pages through a small set of
BeautifulSoup queries, and on loosely typed JSON.

Shallow-embedding conventions:
- A parsed HTML page (`Page`) is the record of exactly the queries the source
  performs on a soup: find of form, of a nav button, of a warning banner, of an
  avatar link, of a generic notification, of the open-trade marker.  The HTML
  parser itself (BeautifulSoup) is an external collaborator, so `bump` takes an
  arbitrary parse function `String → Page` for the stored html snapshot, and
  `do_login` takes the parsed response pages directly.
- Python dicts over string keys are association lists with replace-on-update
  insertion (`dictInsert`), preserving insertion order like CPython.
- `json.loads` is modelled by a fuel-based recursive-descent parser
  (`parseJson`): strings with the escapes \" \\ \/ \b \f \n \r \t \uXXXX,
  strict numbers, and the CPython-default constants NaN, Infinity, -Infinity.
- Python runtime failures (KeyError, IndexError, TypeError, AttributeError,
  ValueError, json.JSONDecodeError) and the plugin's own exception classes are
  the constructors of `Exc`.
- Network effects are explicit: responses are inputs, and `bump` returns the
  list of HTTP requests it issued alongside its result.
-/

/-! ### Python dict model: association lists with replace-on-update insert -/

/-- Python dict assignment `d[k] = v`: if the key exists its value is replaced
in place (insertion order kept), otherwise the pair is appended. -/
def dictInsert {α : Type} (d : List (String × α)) (k : String) (v : α) :
    List (String × α) :=
  if d.any (fun p => p.1 == k) then
    d.map (fun p => if p.1 == k then (k, v) else p)
  else
    d ++ [(k, v)]

/-- Python dict lookup `d[k]` as an `Option` (`none` models KeyError). -/
def dictGet {α : Type} (d : List (String × α)) (k : String) : Option α :=
  (d.find? (fun p => p.1 == k)).map (fun p => p.2)

/-- Number of entries of `d` whose key is `k`. -/
def countKey {α : Type} (d : List (String × α)) (k : String) : Nat :=
  (d.filter (fun p => p.1 == k)).length

/-- The association list has pairwise distinct keys (true of every Python
dict). -/
def UniqKeys {α : Type} (d : List (String × α)) : Prop :=
  List.Pairwise (fun p q => p.1 ≠ q.1) d

/-! ### Python string helpers -/

/-- `charsStartWith hay needle`: `needle` is a prefix of `hay`. -/
def charsStartWith : List Char → List Char → Bool
  | _, [] => true
  | [], _ :: _ => false
  | a :: as, b :: bs => a == b && charsStartWith as bs

/-- `charsContain hay needle`: `needle` occurs contiguously inside `hay`. -/
def charsContain : List Char → List Char → Bool
  | hay, needle =>
    match hay with
    | [] => charsStartWith [] needle
    | _ :: rest => charsStartWith hay needle || charsContain rest needle

/-- Python's `needle in hay` substring test. -/
def pyContains (hay needle : String) : Bool :=
  charsContain hay.data needle.data

/-- Worker for `pySplit`; fuel-based, each step consumes at least one
character when the separator is non-empty. -/
def splitCharsAux (sep : List Char) : Nat → List Char → List Char →
    List (List Char)
  | _, [], acc => [acc.reverse]
  | 0, cs, acc => [acc.reverse ++ cs]
  | fuel + 1, c :: rest, acc =>
    if charsStartWith (c :: rest) sep then
      acc.reverse :: splitCharsAux sep fuel (List.drop sep.length (c :: rest)) []
    else
      splitCharsAux sep fuel rest (c :: acc)

/-- Python `s.split(sep)` for a non-empty separator: split at every
non-overlapping occurrence, keeping empty pieces. -/
def pySplit (s sep : String) : List String :=
  (splitCharsAux sep.data (s.data.length + 1) s.data []).map
    (fun l => String.mk l)

/-- Python `s.replace(old, new)` for non-empty `old`. -/
def pyReplace (s old new : String) : String :=
  String.intercalate new (pySplit s old)

/-- `os.path.basename`: everything after the last slash. -/
def pyBasename (p : String) : String :=
  (pySplit p "/").getLastD ""

/-- Python slice `s[:n]` (first `n` characters). -/
def pyTake (s : String) (n : Nat) : String :=
  String.mk (s.data.take n)

/-- The whitespace characters stripped by `int()`: the code points CPython's
Py_UNICODE_ISSPACE reports as whitespace. -/
def isPySpace (c : Char) : Bool :=
  [0x09, 0x0A, 0x0B, 0x0C, 0x0D, 0x1C, 0x1D, 0x1E, 0x1F, 0x20, 0x85, 0xA0,
   0x1680, 0x2000, 0x2001, 0x2002, 0x2003, 0x2004, 0x2005, 0x2006, 0x2007,
   0x2008, 0x2009, 0x200A, 0x2028, 0x2029, 0x202F, 0x205F,
   0x3000].contains c.toNat

/-- Strip leading and trailing whitespace from a character list. -/
def pyStripChars (cs : List Char) : List Char :=
  ((cs.dropWhile isPySpace).reverse.dropWhile isPySpace).reverse

/-- First code points of the Unicode decimal-digit (Nd) ranges of Unicode
15.0.  Each range is a run of ten code points carrying the digit values 0
through 9 in order; these are exactly the digits Python's `int()` accepts. -/
def ndRangeStarts : List Nat :=
  [0x30, 0x660, 0x6F0, 0x7C0, 0x966, 0x9E6, 0xA66, 0xAE6, 0xB66, 0xBE6,
   0xC66, 0xCE6, 0xD66, 0xDE6, 0xE50, 0xED0, 0xF20, 0x1040, 0x1090, 0x17E0,
   0x1810, 0x1946, 0x19D0, 0x1A80, 0x1A90, 0x1B50, 0x1BB0, 0x1C40, 0x1C50,
   0xA620, 0xA8D0, 0xA900, 0xA9D0, 0xA9F0, 0xAA50, 0xABF0, 0xFF10,
   0x104A0, 0x10D30, 0x11066, 0x110F0, 0x11136, 0x111D0, 0x112F0, 0x11450,
   0x114D0, 0x11650, 0x116C0, 0x11730, 0x11950, 0x11C50, 0x11D50, 0x11DA0,
   0x11F50, 0x16A60, 0x16AC0, 0x16B50, 0x1D7CE, 0x1D7D8, 0x1D7E2, 0x1D7EC,
   0x1D7F6, 0x1E140, 0x1E2F0, 0x1E4F0, 0x1E950, 0x1FBF0]

/-- Python's per-character decimal-digit value: `some v` exactly when the
character is a Unicode Nd digit of value `v` (so `int('٧')` is 7). -/
def pyDigitVal (c : Char) : Option Nat :=
  (ndRangeStarts.find?
      (fun base => decide (base ≤ c.toNat) && decide (c.toNat ≤ base + 9))).map
    (fun base => c.toNat - base)

/-- A character `int()` counts as a digit: any Unicode Nd decimal digit. -/
def isPyDigit (c : Char) : Bool :=
  (pyDigitVal c).isSome

/-- Digit run validity after the first digit: underscores may appear singly
and only between digits (Python 3 `int()` literals). -/
def udAux : List Char → Bool
  | [] => true
  | ['_'] => false
  | '_' :: c :: rest => isPyDigit c && udAux (c :: rest)
  | c :: rest => isPyDigit c && udAux rest

/-- Value of a digit run, ignoring underscores, each digit contributing its
Unicode decimal value. -/
def pyDigitsVal (cs : List Char) : Nat :=
  (cs.filter (fun c => c != '_')).foldl
    (fun n c => n * 10 + (pyDigitVal c).getD 0) 0

/-- Python `int(s)` for base 10: strip whitespace, optional sign, Unicode
decimal digits with optional single underscores between digits.  `none` models
ValueError. -/
def pyIntOfString (s : String) : Option Int :=
  let core : List Char → Option Nat := fun ds =>
    match ds with
    | [] => none
    | c :: _ => if isPyDigit c && udAux ds then some (pyDigitsVal ds) else none
  match pyStripChars s.data with
  | '+' :: rest => (core rest).map Int.ofNat
  | '-' :: rest => (core rest).map (fun n => -(Int.ofNat n))
  | rest => (core rest).map Int.ofNat

/-! ### A model of `json.loads` -/

/-- JSON values.  Numbers keep their lexeme: the plugin never consumes a
numeric value, it only needs to distinguish the variant. -/
inductive Json where
  | null : Json
  | bool (b : Bool) : Json
  | num (lexeme : String) : Json
  | str (s : String) : Json
  | arr (elems : List Json) : Json
  | obj (fields : List (String × Json)) : Json
deriving Repr

/-- JSON structural whitespace. -/
def jsonWs (c : Char) : Bool :=
  [' ', '\t', '\n', '\r'].contains c

/-- Drop leading JSON whitespace. -/
def skipWs (cs : List Char) : List Char :=
  cs.dropWhile jsonWs

/-- Single-character string escapes of JSON. -/
def escChar (c : Char) : Option Char :=
  match c with
  | '"' => some '"'
  | '\\' => some '\\'
  | '/' => some '/'
  | 'b' => some (Char.ofNat 8)
  | 'f' => some (Char.ofNat 12)
  | 'n' => some '\n'
  | 'r' => some '\r'
  | 't' => some '\t'
  | _ => none

/-- Value of one hex digit. -/
def hexVal (c : Char) : Option Nat :=
  if c.isDigit then some (c.toNat - 48)
  else if 97 ≤ c.toNat ∧ c.toNat ≤ 102 then some (c.toNat - 87)
  else if 65 ≤ c.toNat ∧ c.toNat ≤ 70 then some (c.toNat - 55)
  else none

/-- Body of a JSON string after the opening quote; returns the decoded string
and the remainder after the closing quote. -/
def parseStringBody : Nat → List Char → List Char → Option (String × List Char)
  | 0, _, _ => none
  | _, [], _ => none
  | fuel + 1, c :: rest, acc =>
    if c == '"' then some (String.mk acc.reverse, rest)
    else if c == '\\' then
      match rest with
      | [] => none
      | e :: rest2 =>
        match escChar e with
        | some ch => parseStringBody fuel rest2 (ch :: acc)
        | none =>
          if e == 'u' then
            match rest2 with
            | h1 :: h2 :: h3 :: h4 :: rest3 =>
              match hexVal h1, hexVal h2, hexVal h3, hexVal h4 with
              | some a, some b, some c3, some d =>
                parseStringBody fuel rest3
                  (Char.ofNat (((a * 16 + b) * 16 + c3) * 16 + d) :: acc)
              | _, _, _, _ => none
            | _ => none
          else none
    else if c.toNat < 32 then none
    else parseStringBody fuel rest (c :: acc)

/-- Lex a JSON number (sign, integer part without leading zeros, optional
fraction and exponent); keeps the lexeme. -/
def parseNumber (cs : List Char) : Option (Json × List Char) :=
  let (sign, cs1) : String × List Char :=
    match cs with
    | '-' :: r => ("-", r)
    | r => ("", r)
  let intPart := cs1.takeWhile Char.isDigit
  let rest1 := cs1.dropWhile Char.isDigit
  if intPart.isEmpty then none
  else if intPart.length > 1 && intPart.headD 'x' == '0' then none
  else
    let fracStep : Option (String × List Char) :=
      match rest1 with
      | '.' :: r =>
        let ds := r.takeWhile Char.isDigit
        if ds.isEmpty then none
        else some ("." ++ String.mk ds, r.dropWhile Char.isDigit)
      | r => some ("", r)
    match fracStep with
    | none => none
    | some (fracStr, rest2) =>
      let expStep : Option (String × List Char) :=
        match rest2 with
        | 'e' :: r | 'E' :: r =>
          let (s2, r2) : String × List Char :=
            match r with
            | '+' :: rr => ("+", rr)
            | '-' :: rr => ("-", rr)
            | rr => ("", rr)
          let ds := r2.takeWhile Char.isDigit
          if ds.isEmpty then none
          else some ("e" ++ s2 ++ String.mk ds, r2.dropWhile Char.isDigit)
        | r => some ("", r)
      match expStep with
      | none => none
      | some (expStr, rest3) =>
        some (.num (sign ++ String.mk intPart ++ fracStr ++ expStr), rest3)

mutual

/-- Parse one JSON value; fuel decreases on every nested call. -/
def parseValue : Nat → List Char → Option (Json × List Char)
  | 0, _ => none
  | fuel + 1, cs =>
    match skipWs cs with
    | [] => none
    | 'n' :: 'u' :: 'l' :: 'l' :: rest => some (.null, rest)
    | 't' :: 'r' :: 'u' :: 'e' :: rest => some (.bool true, rest)
    | 'f' :: 'a' :: 'l' :: 's' :: 'e' :: rest => some (.bool false, rest)
    | 'N' :: 'a' :: 'N' :: rest => some (.num "NaN", rest)
    | 'I' :: 'n' :: 'f' :: 'i' :: 'n' :: 'i' :: 't' :: 'y' :: rest =>
      some (.num "Infinity", rest)
    | '-' :: 'I' :: 'n' :: 'f' :: 'i' :: 'n' :: 'i' :: 't' :: 'y' :: rest =>
      some (.num "-Infinity", rest)
    | '"' :: rest =>
      match parseStringBody (rest.length + 1) rest [] with
      | some (s, r) => some (.str s, r)
      | none => none
    | '\x7b' :: rest =>
      match skipWs rest with
      | '\x7d' :: r => some (.obj [], r)
      | cs2 =>
        match parseMembers fuel cs2 [] with
        | some (fs, r) => some (.obj fs, r)
        | none => none
    | '[' :: rest =>
      match skipWs rest with
      | ']' :: r => some (.arr [], r)
      | cs2 =>
        match parseElems fuel cs2 with
        | some (vs, r) => some (.arr vs, r)
        | none => none
    | cs2 => parseNumber cs2

/-- Parse a non-empty comma-separated list of values up to `]`. -/
def parseElems : Nat → List Char → Option (List Json × List Char)
  | 0, _ => none
  | fuel + 1, cs =>
    match parseValue fuel cs with
    | none => none
    | some (v, r) =>
      match skipWs r with
      | ',' :: r2 =>
        match parseElems fuel r2 with
        | some (vs, r3) => some (v :: vs, r3)
        | none => none
      | ']' :: r2 => some ([v], r2)
      | _ => none

/-- Parse non-empty object members up to the closing brace, building the dict
with `dictInsert` (a duplicate key replaces the earlier value, as in
`json.loads`). -/
def parseMembers : Nat → List Char → List (String × Json) →
    Option (List (String × Json) × List Char)
  | 0, _, _ => none
  | fuel + 1, cs, acc =>
    match skipWs cs with
    | '"' :: rest =>
      match parseStringBody (rest.length + 1) rest [] with
      | none => none
      | some (k, r) =>
        match skipWs r with
        | ':' :: r2 =>
          match parseValue fuel r2 with
          | none => none
          | some (v, r3) =>
            match skipWs r3 with
            | ',' :: r4 => parseMembers fuel r4 (dictInsert acc k v)
            | '\x7d' :: r4 => some (dictInsert acc k v, r4)
            | _ => none
        | _ => none
    | _ => none

end

/-- `json.loads`: parse a complete document; trailing non-whitespace is an
error ("Extra data").  `none` models `json.JSONDecodeError`. -/
def parseJson (s : String) : Option Json :=
  match parseValue (2 * s.data.length + 8) s.data with
  | some (v, rest) => if (skipWs rest).isEmpty then some v else none
  | none => none

/-! ### Exceptions

One constructor per plugin exception class plus the Python runtime failures
the code can surface. -/

/-- Exceptions raised by the plugin or by the Python runtime. -/
inductive Exc where
  | userSuspended (msg : String) : Exc
  | tooFast (msg : String) : Exc
  | privateProfile (msg : String) : Exc
  | userLevelError (msg : String) : Exc
  | loginError (msg : String) : Exc
  | tradeClosed (id title msg : String) : Exc
  | tradeNotReady (id title : String) (timeLeft : Int) (msg : String) : Exc
  | noTrades (msg : String) : Exc
  | keyError (key : String) : Exc
  | indexError : Exc
  | typeError : Exc
  | attributeError : Exc
  | valueError (s : String) : Exc
  | jsonDecodeError : Exc
deriving Repr, DecidableEq

/-- The classified domain errors of the taxonomy (plugin exception classes),
as opposed to generic Python runtime failures. -/
def Exc.isClassified : Exc → Bool
  | .userSuspended _ => true
  | .tooFast _ => true
  | .privateProfile _ => true
  | .userLevelError _ => true
  | .loginError _ => true
  | .tradeClosed _ _ _ => true
  | .tradeNotReady _ _ _ _ => true
  | .noTrades _ => true
  | _ => false

/-! ### Python subscript/attribute semantics on JSON values -/

/-- Python `x[k]` for a string key `k`. -/
def pySubscriptKey (j : Json) (k : String) : Except Exc Json :=
  match j with
  | .obj fields =>
    match dictGet fields k with
    | some v => .ok v
    | none => .error (.keyError k)
  | _ => .error .typeError

/-- Python `x[0]`: first element of a list, first character of a string
(as a one-character string), KeyError on a dict, TypeError otherwise. -/
def pySubscriptZero (j : Json) : Except Exc Json :=
  match j with
  | .arr [] => .error .indexError
  | .arr (v :: _) => .ok v
  | .str s =>
    match s.data with
    | [] => .error .indexError
    | c :: _ => .ok (.str (String.mk [c]))
  | .obj _ => .error (.keyError "0")
  | _ => .error .typeError

/-- Python `x.split(' ')`: only strings have `split`. -/
def pySplitAttr (j : Json) : Except Exc (List String) :=
  match j with
  | .str s => .ok (pySplit s " ")
  | _ => .error .attributeError

/-- The cooldown branch of `bump`:
`int(json.loads(html)['popup_heading_h2'][0].split(' ')[3])`. -/
def cooldownMinutes (body : String) : Except Exc Int :=
  match parseJson body with
  | none => .error .jsonDecodeError
  | some j =>
    match pySubscriptKey j "popup_heading_h2" with
    | .error e => .error e
    | .ok v =>
      match pySubscriptZero v with
      | .error e => .error e
      | .ok e0 =>
        match pySplitAttr e0 with
        | .error e => .error e
        | .ok toks =>
          match toks[3]? with
          | none => .error .indexError
          | some t =>
            match pyIntOfString t with
            | some n => .ok n
            | none => .error (.valueError t)

/-- An HTML element as the source consumes it: its flattened text content and
its attribute dict. -/
structure Element where
  text : String
  attrs : List (String × String)
deriving Repr, DecidableEq

/-- BeautifulSoup `tag[attr]` (`none` models KeyError). -/
def getAttr (e : Element) (k : String) : Option String :=
  dictGet e.attrs k

/-- A form: the elements returned by `form.findAll('input')`. -/
structure Form where
  inputs : List Element
deriving Repr, DecidableEq

/-- The result of parsing a page, recording each query the source performs:
`find('form')`, `find('a', class_='nav__button')`,
`find('div', class_='notification--warning')`, `find('a', class_='nav_avatar')`,
`find('div', class_='notification')`, `find('div', class_='js_trade_open')`. -/
structure Page where
  form : Option Form
  navButton : Option Element
  warning : Option Element
  navAvatar : Option Element
  notification : Option Element
  jsTradeOpen : Option Element
deriving Repr, DecidableEq

/-- The idiom `elem and 'needle' in elem.text`. -/
def elemTextContains (e : Option Element) (needle : String) : Bool :=
  match e with
  | some el => pyContains el.text needle
  | none => false

/-! ### The plugin -/

/-- The plugin's configuration fields (constructor defaults of `SteamTrades`). -/
structure SteamTrades where
  server : String
  bumpScript : String
  loginPage : String
  openidUrl : String
deriving Repr, DecidableEq

/-- The constructor's default configuration. -/
def defaultSteamTrades : SteamTrades :=
  ⟨"https://www.steamtrades.com", "ajax.php", "https://steamtrades.com/?login",
    "https://steamcommunity.com/openid"⟩

/-- An immutable trade snapshot: canonical id, display title, raw page body. -/
structure TradeInfo where
  id : String
  title : String
  html : String
deriving Repr, DecidableEq

/-- An HTTP request issued by the plugin (url and, for POST, the form data). -/
inductive Request where
  | httpPost (url : String) (payload : List (String × String)) : Request
  | httpGet (url : String) : Request
deriving Repr, DecidableEq

/-- Dict values occurring in the login result: form-field strings and the
boolean `True` of `success`. -/
inductive PyVal where
  | pyStr (s : String) : PyVal
  | pyBool (b : Bool) : PyVal
deriving Repr, DecidableEq

/-- The login-form field collection: name/value pairs of every input, silently
skipping inputs missing either attribute (`contextlib.suppress(KeyError)`). -/
def collectFormData (f : Form) : List (String × String) :=
  f.inputs.foldl
    (fun d inp =>
      match getAttr inp "name", getAttr inp "value" with
      | some n, some v => dictInsert d n v
      | _, _ => d)
    []

/-- `json_data.update(data)`: fold the collected form fields into the login
result, dict-update semantics, form values wrapped as strings. -/
def updateWithForm (jd : List (String × PyVal)) (data : List (String × String)) :
    List (String × PyVal) :=
  data.foldl (fun acc kv => dictInsert acc kv.1 (PyVal.pyStr kv.2)) jd

/-- `SteamTrades.do_login`.  Inputs are the parsed login page and the parsed
response of the POST to `{openid_url}/login`; the raw texts are only ever
parsed, so the pages stand for the two network responses. -/
def do_login (lp pp : Page) : Except Exc (List (String × PyVal)) :=
  match lp.form with
  | none =>
    if elemTextContains lp.navButton "Suspensions" then
      .error (.userSuspended "Unable to login, user is suspended.")
    else if elemTextContains lp.warning "Please wait" then
      .error (.tooFast "Wait 15 seconds before try again.")
    else if elemTextContains lp.warning "public Steam profile" then
      .error (.privateProfile "Your profile must be public to use steamtrades.")
    else
      .error (.loginError "Unable to log-in on steamtrades")
  | some f =>
    let data := collectFormData f
    match pp.navAvatar with
    | some avatar =>
      if elemTextContains pp.navButton "Suspensions" then
        .error (.userSuspended "Unable to login, user is suspended.")
      else
        match getAttr avatar "href" with
        | none => .error (.keyError "href")
        | some href =>
          match (pySplit href "/")[2]? with
          | none => .error .indexError
          | some sid =>
            .ok (updateWithForm
              [("success", PyVal.pyBool true), ("steamid", PyVal.pyStr sid)]
              data)
    | none =>
      if elemTextContains pp.notification "Steam level" then
        .error (.userLevelError "Steam level must be greater to 1.")
      else if elemTextContains pp.warning "public Steam profile" then
        .error (.privateProfile "Your profile must be public to use steamtrades.")
      else
        .error (.loginError "Unable to log-in on steamtrades")

/-- A network response as `get_trade_info` consumes it: the resolved URL's
path and the body text. -/
structure UrlResponse where
  path : String
  text : String
deriving Repr, DecidableEq

/-- `SteamTrades.get_trade_info`: id from `response.url.path.split('/')[2]`,
title from the basename (dash to space, first 22 chars, ellipsis appended),
html from the body.  Also returns the GET request it issued. -/
def get_trade_info (st : SteamTrades) (trade_id : String)
    (response : UrlResponse) : Except Exc TradeInfo × Request :=
  let req := Request.httpGet (st.server ++ "/trade/" ++ trade_id ++ "/")
  match (pySplit response.path "/")[2]? with
  | none => (.error .indexError, req)
  | some id_ =>
    (.ok ⟨id_, pyTake (pyReplace (pyBasename response.path) "-" " ") 22 ++ "...",
      response.text⟩, req)

/-- The response oracle for `bump`: body of the POST to the bump script, body
of the follow-up POST to `{server}/trades`. -/
structure Net where
  bumpResponse : String
  tradesText : String
deriving Repr, DecidableEq

/-- Strict form-field collection of `bump`: only AttributeError is caught
there, so a missing `name`/`value` attribute surfaces as KeyError. -/
def collectFormDataStrict (f : Form) : Except Exc (List (String × String)) :=
  f.inputs.foldlM
    (fun d inp =>
      match getAttr inp "value" with
      | none => .error (.keyError "value")
      | some v =>
        match getAttr inp "name" with
        | none => .error (.keyError "name")
        | some n => .ok (dictInsert d n v))
    []

/-- `SteamTrades.bump`.  `parse` is the external HTML parser applied to the
stale `trade_info.html` snapshot; `net` holds the two response bodies.  The
second component is the list of HTTP requests issued, in order. -/
def bump (st : SteamTrades) (parse : String → Page) (ti : TradeInfo)
    (net : Net) : Except Exc Bool × List Request :=
  let soup := parse ti.html
  match soup.navAvatar with
  | none => (.error (.loginError "User is not logged in"), [])
  | some _ =>
    match soup.jsTradeOpen with
    | some _ =>
      (.error (.tradeClosed ti.id ti.title ("Trade " ++ ti.id ++ " is closed")),
        [])
    | none =>
      match soup.form with
      | none => (.error (.noTrades "No trades available to bump"), [])
      | some f =>
        match collectFormDataStrict f with
        | .error e => (.error e, [])
        | .ok data =>
          match dictGet data "code" with
          | none => (.error (.keyError "code"), [])
          | some code =>
            match dictGet data "xsrf_token" with
            | none => (.error (.keyError "xsrf_token"), [])
            | some xsrf =>
              let payload :=
                [("code", code), ("xsrf_token", xsrf), ("do", "trade_bump")]
              let req1 :=
                Request.httpPost (st.server ++ "/" ++ st.bumpScript) payload
              let html := net.bumpResponse
              if pyContains html "Please wait another" then
                match cooldownMinutes html with
                | .error e => (.error e, [req1])
                | .ok m =>
                  (.error (.tradeNotReady ti.id ti.title m
                    ("Trade " ++ ti.id ++ " is not ready")), [req1])
              else
                let req2 := Request.httpPost (st.server ++ "/trades") []
                (if pyContains net.tradesText ti.id then .ok true
                  else .ok false, [req1, req2])

/-! ### Concrete fixtures -/

/-- A page on which every query comes back empty. -/
def pageEmpty : Page := ⟨none, none, none, none, none, none⟩

/-- A login page without a form, showing the suspensions badge. -/
def pageSusp : Page := ⟨none, some ⟨"Suspensions (1)", []⟩, none, none, none, none⟩

/-- A login page without a form whose warning banner shows both the rate-limit
and the profile-visibility texts. -/
def pageBothWarnings : Page :=
  ⟨none, none,
    some ⟨"Please wait a moment. You need a public Steam profile.", []⟩,
    none, none, none⟩

/-- A login form with one opaque token field. -/
def formLogin : Form := ⟨[⟨"", [("name", "k1"), ("value", "v1")]⟩]⟩

/-- A login page with `formLogin`. -/
def pageLogin : Page := ⟨some formLogin, none, none, none, none, none⟩

/-- An avatar link element. -/
def avatarEl : Element := ⟨"", [("href", "/profiles/76561198012345678/")]⟩

/-- A post-login page with the avatar present and the suspensions badge also
present. -/
def pagePostSusp : Page :=
  ⟨none, some ⟨"Suspensions (1)", []⟩, none, some avatarEl, none, none⟩

/-- A post-login page with just the avatar. -/
def pagePost : Page := ⟨none, none, none, some avatarEl, none, none⟩

/-- A trade-page form carrying the two anti-forgery token fields. -/
def formBump : Form :=
  ⟨[⟨"", [("name", "code"), ("value", "c0de")]⟩,
    ⟨"", [("name", "xsrf_token"), ("value", "t0k3n")]⟩]⟩

/-- A trade page: logged in, trade not closed, bump form present. -/
def pageTrade : Page := ⟨some formBump, none, none, some ⟨"", []⟩, none, none⟩

/-- A trade page showing the open-trade marker. -/
def pageTradeClosed : Page :=
  ⟨some formBump, none, none, some ⟨"", []⟩, none, some ⟨"", []⟩⟩

/-- A trade page whose form has no inputs at all. -/
def pageTradeNoTokens : Page := ⟨some ⟨[]⟩, none, none, some ⟨"", []⟩, none, none⟩

/-- A trade snapshot. -/
def tiFix : TradeInfo := ⟨"123", "my trade ...", "stale html snapshot"⟩

/-- The cooldown JSON envelope of the spec's fixture. -/
def jsonCooldown7 : String :=
  "\x7b\"popup_heading_h2\":[\"Please wait another 7 minutes\"]\x7d"

/-- Responses: cooldown envelope on the bump POST. -/
def netCooldown : Net := ⟨jsonCooldown7, ""⟩

/-- Responses: plain HTML success on the bump POST, listing containing the
trade id. -/
def netOk : Net := ⟨"<div>bumped</div>", "<a href=/trade/123/>my trade</a>"⟩

/-- A login form for the C7 counterexample: a field named `success` and two
fields sharing the name `a`. -/
def formDup : Form :=
  ⟨[⟨"", [("name", "success"), ("value", "0")]⟩,
    ⟨"", [("name", "a"), ("value", "1")]⟩,
    ⟨"", [("name", "a"), ("value", "2")]⟩]⟩

/-- The login page holding `formDup`. -/
def pageLoginDup : Page := ⟨some formDup, none, none, none, none, none⟩

/-! ### Association-list lemmas (Python dict invariants) -/

theorem dictGet_cons {α : Type} (p : String × α) (tl : List (String × α))
    (k : String) :
    dictGet (p :: tl) k = if p.1 == k then some p.2 else dictGet tl k := by
  cases h : (p.1 == k) <;> simp [dictGet, List.find?_cons, h]

theorem dictGet_eq_none_of_forall {α : Type} (d : List (String × α))
    (k : String) (h : ∀ p ∈ d, p.1 ≠ k) : dictGet d k = none := by
  induction d with
  | nil => rfl
  | cons p tl ih =>
    rw [dictGet_cons, if_neg (by simpa using h p (List.mem_cons_self p tl))]
    exact ih (fun q hq => h q (List.mem_cons_of_mem p hq))

theorem dictGet_mapReplace_self {α : Type} (d : List (String × α))
    (k : String) (v : α) (h : d.any (fun p => p.1 == k) = true) :
    dictGet (d.map (fun p => if p.1 == k then (k, v) else p)) k = some v := by
  induction d with
  | nil => simp at h
  | cons p tl ih =>
    by_cases hp : (p.1 == k) = true
    · simp only [List.map_cons, if_pos hp, dictGet_cons, beq_self_eq_true,
        if_pos]
    · have h' : tl.any (fun p => p.1 == k) = true := by
        simpa [List.any_cons, hp] using h
      simp only [List.map_cons, if_neg hp, dictGet_cons, if_neg hp]
      exact ih h'

theorem dictGet_mapReplace_ne {α : Type} (d : List (String × α))
    (k k' : String) (v : α) (h : k' ≠ k) :
    dictGet (d.map (fun p => if p.1 == k then (k, v) else p)) k'
      = dictGet d k' := by
  induction d with
  | nil => rfl
  | cons p tl ih =>
    by_cases hp : (p.1 == k) = true
    · have hp1 : p.1 = k := by simpa using hp
      have hkk' : (k == k') = false := by
        simpa [beq_eq_false_iff_ne] using (Ne.symm h)
      have hpk' : (p.1 == k') = false := by rw [hp1]; exact hkk'
      rw [List.map_cons, if_pos hp, dictGet_cons, dictGet_cons]
      simp only [hkk', hpk', if_false, Bool.false_eq_true]
      simpa using ih
    · simp only [List.map_cons, if_neg hp, dictGet_cons]
      by_cases hq : (p.1 == k') = true
      · rw [if_pos hq, if_pos hq]
      · rw [if_neg hq, if_neg hq]; exact ih

theorem dictGet_append_single {α : Type} (d : List (String × α))
    (k k' : String) (v : α) :
    dictGet (d ++ [(k, v)]) k' =
      match dictGet d k' with
      | some w => some w
      | none => if k == k' then some v else none := by
  induction d with
  | nil => simp [dictGet_cons, dictGet]
  | cons p tl ih =>
    rw [List.cons_append, dictGet_cons, dictGet_cons]
    by_cases h : (p.1 == k') = true
    · rw [if_pos h, if_pos h]
    · rw [if_neg h, if_neg h]; exact ih

theorem dictGet_dictInsert_self {α : Type} (d : List (String × α))
    (k : String) (v : α) : dictGet (dictInsert d k v) k = some v := by
  unfold dictInsert
  split
  case isTrue h => exact dictGet_mapReplace_self d k v h
  case isFalse h =>
    have hall : ∀ p ∈ d, p.1 ≠ k := by
      intro p hp hc
      exact h (List.any_eq_true.mpr ⟨p, hp, by simpa using hc⟩)
    rw [dictGet_append_single, dictGet_eq_none_of_forall d k hall]
    simp

theorem dictGet_dictInsert_ne {α : Type} (d : List (String × α))
    (k k' : String) (v : α) (h : k' ≠ k) :
    dictGet (dictInsert d k v) k' = dictGet d k' := by
  unfold dictInsert
  split
  case isTrue _ => exact dictGet_mapReplace_ne d k k' v h
  case isFalse _ =>
    have hkk' : (k == k') = false := by
      simpa [beq_eq_false_iff_ne] using (Ne.symm h)
    rw [dictGet_append_single]
    cases hd : dictGet d k' with
    | none => simp [hkk']
    | some w => simp

theorem uniqKeys_mapReplace {α : Type} (d : List (String × α))
    (k : String) (v : α) (hu : UniqKeys d) :
    UniqKeys (d.map (fun p => if p.1 == k then (k, v) else p)) := by
  unfold UniqKeys at *
  rw [List.pairwise_map]
  refine hu.imp ?_
  intro a b hab
  have hkey : ∀ p : String × α, (if p.1 == k then (k, v) else p).1 = p.1 := by
    intro p
    by_cases hp : (p.1 == k) = true
    · have hp1 : p.1 = k := by simpa using hp
      rw [if_pos hp]; exact hp1.symm
    · rw [if_neg hp]
  rw [hkey a, hkey b]
  exact hab

theorem uniqKeys_dictInsert {α : Type} (d : List (String × α)) (k : String)
    (v : α) (hu : UniqKeys d) : UniqKeys (dictInsert d k v) := by
  unfold dictInsert
  split
  case isTrue _ => exact uniqKeys_mapReplace d k v hu
  case isFalse h =>
    unfold UniqKeys at *
    rw [List.pairwise_append]
    refine ⟨hu, List.pairwise_singleton _ _, ?_⟩
    intro a ha b hb
    simp only [List.mem_singleton] at hb
    subst hb
    intro hc
    exact h (List.any_eq_true.mpr ⟨a, ha, by simpa using hc⟩)

theorem countKey_eq_zero_of_forall {α : Type} (d : List (String × α))
    (k : String) (h : ∀ p ∈ d, p.1 ≠ k) : countKey d k = 0 := by
  unfold countKey
  rw [List.length_eq_zero, List.filter_eq_nil_iff]
  intro p hp
  simpa using h p hp

theorem countKey_le_one_of_uniq {α : Type} (d : List (String × α))
    (k : String) (hu : UniqKeys d) : countKey d k ≤ 1 := by
  induction d with
  | nil => simp [countKey]
  | cons p tl ih =>
    rw [UniqKeys, List.pairwise_cons] at hu
    by_cases hp : (p.1 == k) = true
    · have hp1 : p.1 = k := by simpa using hp
      have htl : countKey tl k = 0 :=
        countKey_eq_zero_of_forall tl k (fun q hq hc =>
          (hu.1 q hq) (hp1.trans hc.symm))
      have hstep : countKey (p :: tl) k = countKey tl k + 1 := by
        simp [countKey, List.filter_cons, hp]
      omega
    · have hstep : countKey (p :: tl) k = countKey tl k := by
        simp [countKey, List.filter_cons, hp]
      rw [hstep]
      exact ih hu.2

theorem dictGet_updateWithForm_of_none (data : List (String × String))
    (jd : List (String × PyVal)) (k : String) (h : dictGet data k = none) :
    dictGet (updateWithForm jd data) k = dictGet jd k := by
  induction data generalizing jd with
  | nil => rfl
  | cons p tl ih =>
    rw [dictGet_cons] at h
    by_cases hp : (p.1 == k) = true
    · rw [if_pos hp] at h; cases h
    · rw [if_neg hp] at h
      have hne : k ≠ p.1 := fun hc => hp (by simp [hc])
      show dictGet (updateWithForm (dictInsert jd p.1 (PyVal.pyStr p.2)) tl) k
        = dictGet jd k
      rw [ih (dictInsert jd p.1 (PyVal.pyStr p.2)) h]
      exact dictGet_dictInsert_ne jd p.1 k (PyVal.pyStr p.2) hne

theorem dictGet_updateWithForm_of_some (data : List (String × String))
    (jd : List (String × PyVal)) (k v : String)
    (hu : UniqKeys data) (h : dictGet data k = some v) :
    dictGet (updateWithForm jd data) k = some (PyVal.pyStr v) := by
  induction data generalizing jd with
  | nil => cases h
  | cons p tl ih =>
    rw [UniqKeys, List.pairwise_cons] at hu
    rw [dictGet_cons] at h
    by_cases hp : (p.1 == k) = true
    · rw [if_pos hp] at h
      injection h with hv
      have hp1 : p.1 = k := by simpa using hp
      have htl : dictGet tl k = none :=
        dictGet_eq_none_of_forall tl k (fun q hq hc =>
          (hu.1 q hq) (hp1.trans hc.symm))
      show dictGet (updateWithForm (dictInsert jd p.1 (PyVal.pyStr p.2)) tl) k
        = some (PyVal.pyStr v)
      rw [dictGet_updateWithForm_of_none tl _ k htl, hp1, hv]
      exact dictGet_dictInsert_self jd k (PyVal.pyStr v)
    · rw [if_neg hp] at h
      exact ih (dictInsert jd p.1 (PyVal.pyStr p.2)) hu.2 h

theorem uniqKeys_updateWithForm (data : List (String × String))
    (jd : List (String × PyVal)) (hu : UniqKeys jd) :
    UniqKeys (updateWithForm jd data) := by
  induction data generalizing jd with
  | nil => exact hu
  | cons p tl ih =>
    exact ih (dictInsert jd p.1 (PyVal.pyStr p.2))
      (uniqKeys_dictInsert jd p.1 (PyVal.pyStr p.2) hu)

theorem uniqKeys_collect_aux (inputs : List Element)
    (acc : List (String × String)) (hu : UniqKeys acc) :
    UniqKeys (inputs.foldl
      (fun d inp =>
        match getAttr inp "name", getAttr inp "value" with
        | some n, some v => dictInsert d n v
        | _, _ => d) acc) := by
  induction inputs generalizing acc with
  | nil => exact hu
  | cons inp tl ih =>
    rw [List.foldl_cons]
    apply ih
    cases hn : getAttr inp "name" with
    | none => simp only [hn]; exact hu
    | some n =>
      cases hv : getAttr inp "value" with
      | none => simp only [hn, hv]; exact hu
      | some v =>
        simp only [hn, hv]
        exact uniqKeys_dictInsert acc n v hu

theorem uniqKeys_collectFormData (f : Form) :
    UniqKeys (collectFormData f) :=
  uniqKeys_collect_aux f.inputs [] List.Pairwise.nil

/-! ### Split-length and cooldown-classification lemmas -/

/-- C1: on a login-page response without a form, `do_login` raises exactly one
classified failure, chosen in order: suspensions badge → UserSuspended, then
"Please wait" warning → TooFast, then "public Steam profile" warning →
PrivateProfile, else a generic LoginError; when both warning texts are present
TooFast wins. -/
theorem do_login_no_form_taxonomy (lp pp : Page) (hform : lp.form = none) :
    (elemTextContains lp.navButton "Suspensions" = true →
      do_login lp pp
        = .error (.userSuspended "Unable to login, user is suspended.")) ∧
    (elemTextContains lp.navButton "Suspensions" = false →
      elemTextContains lp.warning "Please wait" = true →
      do_login lp pp = .error (.tooFast "Wait 15 seconds before try again.")) ∧
    (elemTextContains lp.navButton "Suspensions" = false →
      elemTextContains lp.warning "Please wait" = false →
      elemTextContains lp.warning "public Steam profile" = true →
      do_login lp pp
        = .error (.privateProfile
            "Your profile must be public to use steamtrades.")) ∧
    (elemTextContains lp.navButton "Suspensions" = false →
      elemTextContains lp.warning "Please wait" = false →
      elemTextContains lp.warning "public Steam profile" = false →
      do_login lp pp = .error (.loginError "Unable to log-in on steamtrades")) ∧
    (elemTextContains lp.navButton "Suspensions" = false →
      elemTextContains lp.warning "Please wait" = true →
      elemTextContains lp.warning "public Steam profile" = true →
      do_login lp pp = .error (.tooFast "Wait 15 seconds before try again.")) := by
  refine ⟨?_, ?_, ?_, ?_, ?_⟩ <;>
    intro h1 <;>
    first
      | (intro h2 h3; simp [do_login, hform, h1, h2, h3])
      | (intro h2; simp [do_login, hform, h1, h2])
      | simp [do_login, hform, h1]

/-- Witness for C1: the suspension fixture and the both-warnings fixture. -/
theorem do_login_no_form_taxonomy_witness :
    do_login pageSusp pageEmpty
        = .error (.userSuspended "Unable to login, user is suspended.")
    ∧ do_login pageBothWarnings pageEmpty
        = .error (.tooFast "Wait 15 seconds before try again.") :=
  ⟨(do_login_no_form_taxonomy pageSusp pageEmpty rfl).1 (by decide),
   (do_login_no_form_taxonomy pageBothWarnings pageEmpty rfl).2.2.2.2
     (by decide) (by decide) (by decide)⟩

/-- C2: on the post-login page, `do_login` classifies in order: avatar present
with suspensions badge → UserSuspended (the intentional duplicate check);
avatar present otherwise → success payload whose steamid is element 2 of the
avatar link's href split on "/" (its third path segment); avatar absent →
UserLevelError on a "Steam level" notification, else PrivateProfile on a
"public Steam profile" warning, else generic LoginError. -/
theorem do_login_post_login_taxonomy (lp pp : Page) (f : Form)
    (hf : lp.form = some f) :
    (∀ av, pp.navAvatar = some av →
      elemTextContains pp.navButton "Suspensions" = true →
      do_login lp pp
        = .error (.userSuspended "Unable to login, user is suspended.")) ∧
    (∀ av href sid, pp.navAvatar = some av →
      elemTextContains pp.navButton "Suspensions" = false →
      getAttr av "href" = some href →
      (pySplit href "/")[2]? = some sid →
      do_login lp pp
        = .ok (updateWithForm
            [("success", PyVal.pyBool true), ("steamid", PyVal.pyStr sid)]
            (collectFormData f))) ∧
    (pp.navAvatar = none →
      elemTextContains pp.notification "Steam level" = true →
      do_login lp pp
        = .error (.userLevelError "Steam level must be greater to 1.")) ∧
    (pp.navAvatar = none →
      elemTextContains pp.notification "Steam level" = false →
      elemTextContains pp.warning "public Steam profile" = true →
      do_login lp pp
        = .error (.privateProfile
            "Your profile must be public to use steamtrades.")) ∧
    (pp.navAvatar = none →
      elemTextContains pp.notification "Steam level" = false →
      elemTextContains pp.warning "public Steam profile" = false →
      do_login lp pp
        = .error (.loginError "Unable to log-in on steamtrades")) := by
  refine ⟨?_, ?_, ?_, ?_, ?_⟩
  · intro av hav h1
    simp [do_login, hf, hav, h1]
  · intro av href sid hav h1 hhref hsid
    simp [do_login, hf, hav, h1, hhref, hsid]
  · intro hav h1
    simp [do_login, hf, hav, h1]
  · intro hav h1 h2
    simp [do_login, hf, hav, h1, h2]
  · intro hav h1 h2
    simp [do_login, hf, hav, h1, h2]

/-- Witness for C2: avatar and suspensions badge both present on the
post-login page still yields UserSuspended. -/
theorem do_login_post_login_taxonomy_witness :
    do_login pageLogin pagePostSusp
      = .error (.userSuspended "Unable to login, user is suspended.") :=
  (do_login_post_login_taxonomy pageLogin pagePostSusp formLogin rfl).1
    avatarEl rfl (by decide)

/-- C3: when the bump POST response contains "Please wait another", `bump`
parses the body as JSON, takes element 0 of the array under popup_heading_h2,
parses the fourth space-separated token as an integer, and raises
TradeNotReadyError carrying that integer with the trade's id and title; the
fixture body with "7 minutes" yields 7. -/
theorem bump_cooldown_not_ready (st : SteamTrades) (parse : String → Page)
    (ti : TradeInfo) (net : Net) (av : Element) (f : Form)
    (data : List (String × String)) (code xsrf : String) (m : Int)
    (hav : (parse ti.html).navAvatar = some av)
    (hopen : (parse ti.html).jsTradeOpen = none)
    (hform : (parse ti.html).form = some f)
    (hdata : collectFormDataStrict f = .ok data)
    (hcode : dictGet data "code" = some code)
    (hxsrf : dictGet data "xsrf_token" = some xsrf)
    (hsub : pyContains net.bumpResponse "Please wait another" = true)
    (hm : cooldownMinutes net.bumpResponse = .ok m) :
    bump st parse ti net
      = (.error (.tradeNotReady ti.id ti.title m
          ("Trade " ++ ti.id ++ " is not ready")),
         [.httpPost (st.server ++ "/" ++ st.bumpScript)
           [("code", code), ("xsrf_token", xsrf), ("do", "trade_bump")]])
    ∧ cooldownMinutes jsonCooldown7 = .ok 7 := by
  refine ⟨?_, rfl⟩
  simp [bump, hav, hopen, hform, hdata, hcode, hxsrf, hsub, hm]

/-- Witness for C3: a full concrete bump run against the cooldown fixture. -/
theorem bump_cooldown_not_ready_witness :
    bump defaultSteamTrades (fun _ => pageTrade) tiFix netCooldown
      = (.error (.tradeNotReady "123" "my trade ..." 7
          "Trade 123 is not ready"),
         [.httpPost "https://www.steamtrades.com/ajax.php"
           [("code", "c0de"), ("xsrf_token", "t0k3n"), ("do", "trade_bump")]])
    ∧ cooldownMinutes jsonCooldown7 = .ok 7 :=
  bump_cooldown_not_ready defaultSteamTrades (fun _ => pageTrade) tiFix
    netCooldown ⟨"", []⟩ formBump [("code", "c0de"), ("xsrf_token", "t0k3n")]
    "c0de" "t0k3n" 7 rfl rfl rfl rfl rfl rfl (by decide) rfl

/-- C4: when the stale html snapshot of a TradeInfo has no avatar element,
`bump` raises LoginError with no network request issued, whatever the network
would have answered. -/
theorem bump_stale_logout_refusal (st : SteamTrades) (parse : String → Page)
    (ti : TradeInfo) (hav : (parse ti.html).navAvatar = none) :
    ∀ net, bump st parse ti net
      = (.error (.loginError "User is not logged in"), []) := by
  intro net
  simp [bump, hav]

/-- Witness for C4: concrete run on a snapshot whose parse has no avatar. -/
theorem bump_stale_logout_refusal_witness :
    bump defaultSteamTrades (fun _ => pageEmpty) tiFix netOk
      = (.error (.loginError "User is not logged in"), []) :=
  bump_stale_logout_refusal defaultSteamTrades (fun _ => pageEmpty) tiFix rfl
    netOk

/-- C6: the TradeInfo returned by `get_trade_info` does not depend on the
caller-supplied trade id: its id is element 2 of the resolved URL path split
on "/" (the second path segment) and its title is the final path segment with
dashes replaced by spaces, truncated to 22 characters, with "..." appended
unconditionally — also when the normalized title is shorter than 22
characters. -/
theorem get_trade_info_id_title_derivation :
    (∀ st a b r, (get_trade_info st a r).1 = (get_trade_info st b r).1)
    ∧ (get_trade_info defaultSteamTrades "SLUG-Alias"
        ⟨"/trade/123/some-long-trade-title-here", "BODY"⟩).1
      = .ok ⟨"123", "some long trade title ...", "BODY"⟩
    ∧ (get_trade_info defaultSteamTrades "x" ⟨"/trade/9/ab", "BODY"⟩).1
      = .ok ⟨"9", "ab...", "BODY"⟩ :=
  ⟨fun st a b r => by
    unfold get_trade_info
    cases (pySplit r.path "/")[2]? <;> rfl, rfl, rfl⟩

/-- C5 counterexample: on a cooldown-free response the follow-up request to
the trades listing is a POST, not the GET the claim states; the run issues
exactly two POSTs and no GET, and still returns true when the listing contains
the trade id. -/
theorem bump_follow_up_post_counterexample :
    bump defaultSteamTrades (fun _ => pageTrade) tiFix netOk
      = (.ok true,
         [.httpPost "https://www.steamtrades.com/ajax.php"
           [("code", "c0de"), ("xsrf_token", "t0k3n"), ("do", "trade_bump")],
          .httpPost "https://www.steamtrades.com/trades" []])
    ∧ Request.httpGet "https://www.steamtrades.com/trades"
        ∉ (bump defaultSteamTrades (fun _ => pageTrade) tiFix netOk).2 :=
  ⟨rfl, by decide⟩

/-- C5 (amended): when the bump POST response lacks the cooldown substring,
`bump` issues a follow-up POST to the trades listing page and returns true
exactly when the trade's id appears in that page's text, false otherwise. -/
theorem bump_success_confirmation (st : SteamTrades) (parse : String → Page)
    (ti : TradeInfo) (net : Net) (av : Element) (f : Form)
    (data : List (String × String)) (code xsrf : String)
    (hav : (parse ti.html).navAvatar = some av)
    (hopen : (parse ti.html).jsTradeOpen = none)
    (hform : (parse ti.html).form = some f)
    (hdata : collectFormDataStrict f = .ok data)
    (hcode : dictGet data "code" = some code)
    (hxsrf : dictGet data "xsrf_token" = some xsrf)
    (hsub : pyContains net.bumpResponse "Please wait another" = false) :
    bump st parse ti net
      = (.ok (pyContains net.tradesText ti.id),
         [.httpPost (st.server ++ "/" ++ st.bumpScript)
           [("code", code), ("xsrf_token", xsrf), ("do", "trade_bump")],
          .httpPost (st.server ++ "/trades") []]) := by
  cases h : pyContains net.tradesText ti.id <;>
    simp [bump, hav, hopen, hform, hdata, hcode, hxsrf, hsub, h]

/-- Witness for the amended C5: concrete success run returning true. -/
theorem bump_success_confirmation_witness :
    bump defaultSteamTrades (fun _ => pageTrade) tiFix netOk
      = (.ok true,
         [.httpPost "https://www.steamtrades.com/ajax.php"
           [("code", "c0de"), ("xsrf_token", "t0k3n"), ("do", "trade_bump")],
          .httpPost "https://www.steamtrades.com/trades" []]) := by
  have h := bump_success_confirmation defaultSteamTrades (fun _ => pageTrade)
    tiFix netOk ⟨"", []⟩ formBump [("code", "c0de"), ("xsrf_token", "t0k3n")]
    "c0de" "t0k3n" rfl rfl rfl rfl rfl rfl (by decide)
  have hc : pyContains netOk.tradesText tiFix.id = true := by decide
  rw [hc] at h
  exact h

/-- C7 counterexample: with a form field named `success` and two fields
sharing the name `a`, the login payload keeps only the last `a` value (dict
semantics collapse duplicates) and the `success: true` pair is overwritten by
the form field — contradicting the claim that duplicates both appear and that
`success: true` is always present. -/
theorem do_login_payload_dict_counterexample :
    do_login pageLoginDup pagePost
      = .ok [("success", PyVal.pyStr "0"),
             ("steamid", PyVal.pyStr "76561198012345678"),
             ("a", PyVal.pyStr "2")]
    ∧ countKey [("success", PyVal.pyStr "0"),
             ("steamid", PyVal.pyStr "76561198012345678"),
             ("a", PyVal.pyStr "2")] "a" = 1
    ∧ dictGet [("success", PyVal.pyStr "0"),
             ("steamid", PyVal.pyStr "76561198012345678"),
             ("a", PyVal.pyStr "2")] "success" ≠ some (PyVal.pyBool true) :=
  ⟨rfl, by decide, by decide⟩

/-- C7 (amended): on success the login payload is the pair set
`success: true, steamid` updated with the collected form fields under Python
dict semantics: every collected field appears verbatim under its name, the
`success`/`steamid` pairs survive unless a form field shares their name, of
two inputs sharing a name only the last-collected value appears, and the
result maps each name to at most one value. -/
theorem do_login_payload_merge (lp pp : Page) (f : Form) (av : Element)
    (href sid : String)
    (hf : lp.form = some f)
    (hav : pp.navAvatar = some av)
    (hsusp : elemTextContains pp.navButton "Suspensions" = false)
    (hhref : getAttr av "href" = some href)
    (hsid : (pySplit href "/")[2]? = some sid) :
    do_login lp pp
      = .ok (updateWithForm
          [("success", PyVal.pyBool true), ("steamid", PyVal.pyStr sid)]
          (collectFormData f))
    ∧ (∀ k v, dictGet (collectFormData f) k = some v →
        dictGet (updateWithForm
          [("success", PyVal.pyBool true), ("steamid", PyVal.pyStr sid)]
          (collectFormData f)) k = some (PyVal.pyStr v))
    ∧ (dictGet (collectFormData f) "success" = none →
        dictGet (updateWithForm
          [("success", PyVal.pyBool true), ("steamid", PyVal.pyStr sid)]
          (collectFormData f)) "success" = some (PyVal.pyBool true))
    ∧ (dictGet (collectFormData f) "steamid" = none →
        dictGet (updateWithForm
          [("success", PyVal.pyBool true), ("steamid", PyVal.pyStr sid)]
          (collectFormData f)) "steamid" = some (PyVal.pyStr sid))
    ∧ (∀ k, countKey (updateWithForm
          [("success", PyVal.pyBool true), ("steamid", PyVal.pyStr sid)]
          (collectFormData f)) k ≤ 1) := by
  have hjd : UniqKeys
      [("success", PyVal.pyBool true), ("steamid", PyVal.pyStr sid)] := by
    refine List.Pairwise.cons (fun q hq => ?_) (List.pairwise_singleton _ _)
    rcases List.mem_singleton.mp hq with rfl
    exact (by decide : ("success" : String) ≠ "steamid")
  refine ⟨?_, ?_, ?_, ?_, ?_⟩
  · simp [do_login, hf, hav, hsusp, hhref, hsid]
  · intro k v hk
    exact dictGet_updateWithForm_of_some _ _ k v (uniqKeys_collectFormData f) hk
  · intro hnone
    rw [dictGet_updateWithForm_of_none _ _ _ hnone]
    rfl
  · intro hnone
    rw [dictGet_updateWithForm_of_none _ _ _ hnone]
    rfl
  · intro k
    exact countKey_le_one_of_uniq _ k
      (uniqKeys_updateWithForm (collectFormData f) _ hjd)

/-- Witness for the amended C7: concrete successful login merging one token
field. -/
theorem do_login_payload_merge_witness :
    do_login pageLogin pagePost
      = .ok [("success", PyVal.pyBool true),
             ("steamid", PyVal.pyStr "76561198012345678"),
             ("k1", PyVal.pyStr "v1")] := by
  have h := (do_login_payload_merge pageLogin pagePost formLogin avatarEl
    "/profiles/76561198012345678/" "76561198012345678" rfl rfl (by decide) rfl
    rfl).1
  exact h.trans rfl

/-- C8: on a snapshot with the login indicator, `bump` raises TradeClosedError
carrying the trade's id and title when the open-trade marker is present, and
otherwise raises NoTradesError — a distinct failure — when no form element
exists at all. -/
theorem bump_closed_and_no_trades (st : SteamTrades) (parse : String → Page)
    (ti : TradeInfo) (net : Net) (av : Element)
    (hav : (parse ti.html).navAvatar = some av) :
    (∀ d, (parse ti.html).jsTradeOpen = some d →
      bump st parse ti net
        = (.error (.tradeClosed ti.id ti.title
            ("Trade " ++ ti.id ++ " is closed")), [])) ∧
    ((parse ti.html).jsTradeOpen = none → (parse ti.html).form = none →
      bump st parse ti net
        = (.error (.noTrades "No trades available to bump"), [])) ∧
    Exc.noTrades "No trades available to bump"
      ≠ Exc.tradeClosed ti.id ti.title ("Trade " ++ ti.id ++ " is closed") := by
  refine ⟨?_, ?_, fun hc => Exc.noConfusion hc⟩
  · intro d hopen
    simp [bump, hav, hopen]
  · intro hopen hform
    simp [bump, hav, hopen, hform]

/-- Witness for C8: concrete closed-trade run. -/
theorem bump_closed_and_no_trades_witness :
    bump defaultSteamTrades (fun _ => pageTradeClosed) tiFix netOk
      = (.error (.tradeClosed "123" "my trade ..." "Trade 123 is closed"),
         []) :=
  (bump_closed_and_no_trades defaultSteamTrades (fun _ => pageTradeClosed)
    tiFix netOk ⟨"", []⟩ rfl).1 ⟨"", []⟩ rfl

/-- C9: when the collected form fields lack `code` or `xsrf_token`, `bump`
fails with a KeyError-style lookup failure — not a classified domain error —
and never returns a boolean. -/
theorem bump_missing_token_lookup_failure (st : SteamTrades)
    (parse : String → Page) (ti : TradeInfo) (net : Net) (av : Element)
    (f : Form) (data : List (String × String))
    (hav : (parse ti.html).navAvatar = some av)
    (hopen : (parse ti.html).jsTradeOpen = none)
    (hform : (parse ti.html).form = some f)
    (hdata : collectFormDataStrict f = .ok data)
    (hmiss : dictGet data "code" = none ∨ dictGet data "xsrf_token" = none) :
    ∃ k, bump st parse ti net = (.error (.keyError k), [])
      ∧ (k = "code" ∨ k = "xsrf_token")
      ∧ (Exc.keyError k).isClassified = false
      ∧ ∀ b, (bump st parse ti net).1 ≠ .ok b := by
  cases hc : dictGet data "code" with
  | none =>
    refine ⟨"code", ?_, Or.inl rfl, rfl, ?_⟩
    · simp [bump, hav, hopen, hform, hdata, hc]
    · intro b
      simp [bump, hav, hopen, hform, hdata, hc]
  | some code =>
    have hx : dictGet data "xsrf_token" = none := by
      rcases hmiss with h | h
      · rw [hc] at h; cases h
      · exact h
    refine ⟨"xsrf_token", ?_, Or.inr rfl, rfl, ?_⟩
    · simp [bump, hav, hopen, hform, hdata, hc, hx]
    · intro b
      simp [bump, hav, hopen, hform, hdata, hc, hx]

/-- Witness for C9: a trade form with no inputs collects an empty dict, so the
`code` lookup fails. -/
theorem bump_missing_token_lookup_failure_witness :
    ∃ k, bump defaultSteamTrades (fun _ => pageTradeNoTokens) tiFix netOk
        = (.error (.keyError k), [])
      ∧ (k = "code" ∨ k = "xsrf_token")
      ∧ (Exc.keyError k).isClassified = false
      ∧ ∀ b, (bump defaultSteamTrades (fun _ => pageTradeNoTokens) tiFix
          netOk).1 ≠ .ok b :=
  bump_missing_token_lookup_failure defaultSteamTrades
    (fun _ => pageTradeNoTokens) tiFix netOk ⟨"", []⟩ ⟨[]⟩ [] rfl rfl rfl rfl
    (Or.inl rfl)

